import Mathlib

/-!
Verification development for the SonataMarketing/soicalmaestroai repository.

The repository's implemented code is presentation layer (Next.js pages,
auth components, README-embedded forms). The content lifecycle pipeline
(Review Gate state machine, Scheduler, Publisher Dispatcher) is described
in the design specification but has no implementation under the source
tree (the review page's handleApprove/handleReject/addFeedback are
console.log stubs); those parts are modelled from the spec below, each
marked `Modelled from the spec:`. The auth role gate
(src/src/components/auth/protected-route.tsx), the signup-form validation
(src/backend/README.md) and the static review-queue data
(src/src/app/review/page.tsx) are translated directly from the source.
-/

namespace SocialMaestro

/-- Modelled from the spec: target platform of a content item (§3);
the repository has no backend enum, only UI strings. -/
inductive Platform
  | instagram
  | twitter
  | linkedin
  | facebook
deriving DecidableEq, Repr

/-- Modelled from the spec: kind of a content item (§3). -/
inductive Kind
  | photo
  | video
  | text
deriving DecidableEq, Repr

/-- Modelled from the spec: lifecycle states of a content item (§4.1);
the Review Gate state machine is not implemented in the source tree. -/
inductive ContentState
  | scraped
  | draft
  | pending_review
  | flagged
  | approved
  | rejected
  | scheduled
  | published
  | failed
deriving DecidableEq, Repr

/-- Modelled from the spec: synchronous error taxonomy (§7). -/
inductive PipelineError
  | InvalidTransition
  | Unauthorized
  | ConcurrentModification
deriving DecidableEq, Repr

/-- Modelled from the spec: publish-time failure taxonomy (§4.3). -/
inductive FailureKind
  | PlatformRejected
  | TransientError
  | AuthExpired
deriving DecidableEq, Repr

/-- Modelled from the spec: one review_feedback entry
\x7breviewer, comment, timestamp\x7d (§3). -/
structure Feedback where
  reviewer : String
  comment : String
  timestamp : Nat
deriving DecidableEq, Repr

/-- Modelled from the spec: the central ContentItem entity (§3).
Timestamps are Nats (minutes); `body`/media reference carry no
pipeline-relevant structure and are left out of the model. -/
structure ContentItem where
  id : Nat
  platform : Platform
  kind : Kind
  state : ContentState
  scheduled_for : Option Nat
  attempt_count : Nat
  review_feedback : List Feedback
deriving DecidableEq, Repr

/-- Modelled from the spec: a review decision (§4.1). -/
inductive Decision
  | approve
  | reject
deriving DecidableEq, Repr

/-- Modelled from the spec: `submit_for_review(item)` — `scraped`/`draft`
to `pending_review`, no guard, sets `review_feedback = []` (§4.1);
on any other state the transition is illegal and nothing is mutated. -/
def submit_for_review (item : ContentItem) :
    ContentItem × Option PipelineError :=
  if item.state = ContentState.scraped ∨ item.state = ContentState.draft then
    ({ item with state := ContentState.pending_review, review_feedback := [] },
      none)
  else
    (item, some PipelineError.InvalidTransition)

/-- Modelled from the spec: `decide(item, decision, reviewer)` (§4.1) —
fails with `InvalidTransition` if the item is not in
`pending_review`/`flagged`; fails with `Unauthorized` if the reviewer
lacks reviewer-or-above privilege (the privilege fact is supplied
already-resolved by the external auth collaborator, per §9); approve
moves to `approved`, reject moves to `rejected` and clears
`scheduled_for` (§3); errors mutate nothing. -/
def decide (item : ContentItem) (d : Decision) (privileged : Bool) :
    ContentItem × Option PipelineError :=
  if item.state = ContentState.pending_review ∨
      item.state = ContentState.flagged then
    if privileged then
      match d with
      | Decision.approve => ({ item with state := ContentState.approved }, none)
      | Decision.reject =>
          ({ item with state := ContentState.rejected, scheduled_for := none },
            none)
    else
      (item, some PipelineError.Unauthorized)
  else
    (item, some PipelineError.InvalidTransition)

/-- Modelled from the spec: `add_feedback(item, reviewer, comment)` —
always legal, appends to the append-only `review_feedback`, and changes
state only when it is the first feedback on a fresh `pending_review`
item, in which case `pending_review` becomes `flagged` (§4.1). -/
def add_feedback (item : ContentItem) (reviewer comment : String)
    (timestamp : Nat) : ContentItem :=
  let appended :=
    { item with
        review_feedback :=
          item.review_feedback ++ [⟨reviewer, comment, timestamp⟩] }
  if item.state = ContentState.pending_review ∧ item.review_feedback = [] then
    { appended with state := ContentState.flagged }
  else
    appended

/-- Modelled from the spec: the Scheduler's `approved` to `scheduled`
move — sets `scheduled_for` to the assigned slot (§4.1, §4.2). -/
def markScheduled (item : ContentItem) (slot : Nat) :
    ContentItem × Option PipelineError :=
  if item.state = ContentState.approved then
    ({ item with state := ContentState.scheduled, scheduled_for := some slot },
      none)
  else
    (item, some PipelineError.InvalidTransition)

/-- Modelled from the spec: the Dispatcher's `scheduled` to `published`
move on success (§4.1). -/
def markPublished (item : ContentItem) : ContentItem × Option PipelineError :=
  if item.state = ContentState.scheduled then
    ({ item with state := ContentState.published }, none)
  else
    (item, some PipelineError.InvalidTransition)

/-- Modelled from the spec: the Dispatcher's `scheduled` to `failed`
move once the retry ceiling is exhausted (§4.1). -/
def markFailed (item : ContentItem) : ContentItem × Option PipelineError :=
  if item.state = ContentState.scheduled then
    ({ item with state := ContentState.failed }, none)
  else
    (item, some PipelineError.InvalidTransition)

/-- Modelled from the spec: the trigger vocabulary of the §4.1 state
machine; `flag` is the concern-feedback transition, `approve`/`reject`
carry the already-resolved reviewer privilege, `schedule` carries the
assigned slot, and the two publish triggers are the Dispatcher's
terminal moves. -/
inductive Trigger
  | submit
  | flag
  | approve (privileged : Bool)
  | reject (privileged : Bool)
  | schedule (slot : Nat)
  | publishSuccess
  | publishFail
deriving DecidableEq, Repr

/-- Modelled from the spec: `pending_review` to `flagged` triggered by a
reviewer adding a concern-type feedback entry without a decision (§4.1),
viewed as a bare state transition. -/
def flagTransition (item : ContentItem) : ContentItem × Option PipelineError :=
  if item.state = ContentState.pending_review then
    ({ item with state := ContentState.flagged }, none)
  else
    (item, some PipelineError.InvalidTransition)

/-- Modelled from the spec: the single entry point of the §4.1 state
machine, dispatching a trigger to the corresponding operation. -/
def transition (item : ContentItem) : Trigger → ContentItem × Option PipelineError
  | Trigger.submit => submit_for_review item
  | Trigger.flag => flagTransition item
  | Trigger.approve p => decide item Decision.approve p
  | Trigger.reject p => decide item Decision.reject p
  | Trigger.schedule slot => markScheduled item slot
  | Trigger.publishSuccess => markPublished item
  | Trigger.publishFail => markFailed item

/-- Modelled from the spec: the legal edge set of §4.1. -/
def legalEdge : ContentState → ContentState → Bool
  | ContentState.scraped, ContentState.pending_review => true
  | ContentState.draft, ContentState.pending_review => true
  | ContentState.pending_review, ContentState.flagged => true
  | ContentState.pending_review, ContentState.approved => true
  | ContentState.flagged, ContentState.approved => true
  | ContentState.pending_review, ContentState.rejected => true
  | ContentState.flagged, ContentState.rejected => true
  | ContentState.approved, ContentState.scheduled => true
  | ContentState.scheduled, ContentState.published => true
  | ContentState.scheduled, ContentState.failed => true
  | _, _ => false

/-- Modelled from the spec: outcome of one platform publish call —
`PublishResult\x7bsuccess, platform_post_id?, error_kind?\x7d` (§6),
abstracted to success or a classified failure. -/
inductive PublishOutcome
  | success
  | failure (kind : FailureKind)
deriving DecidableEq, Repr

/-- Modelled from the spec: notification events consumed by the
Notifier — `ReviewRequested|Published|Failed|AuthExpired` (§6), plus the
per-attempt warning distinct from the terminal failure notification
(§4.3). -/
inductive NotifyEvent
  | ReviewRequested
  | Published
  | AttemptWarning
  | Failed
  | AuthExpired
deriving DecidableEq, Repr

/-- Modelled from the spec: Dispatcher configuration — retry ceiling
`max_attempts` (default 3) and the fixed backoff interval (§4.3, §9). -/
structure DispatcherConfig where
  max_attempts : Nat
  backoff : Nat
deriving DecidableEq, Repr

/-- Modelled from the spec: the default configuration — `max_attempts`
= 3 (§4.3), fixed short backoff delay (§9; interval in minutes). -/
def defaultDispatcherConfig : DispatcherConfig :=
  { max_attempts := 3, backoff := 60 }

/-- Modelled from the spec: a due item — a `scheduled` ContentItem whose
`scheduled_for` timestamp has elapsed (glossary). -/
def isDue (item : ContentItem) (now : Nat) : Bool :=
  Decidable.decide (item.state = ContentState.scheduled) &&
    (match item.scheduled_for with
     | some t => Decidable.decide (t ≤ now)
     | none => false)

/-- Modelled from the spec: the Dispatcher's handling of one publish
outcome for a due item (§4.3). Success moves to `published` and emits a
`Published` event. Any failure increments `attempt_count`. A
`TransientError` below the ceiling leaves the item `scheduled` with
`scheduled_for` pushed forward by the backoff interval and emits a
per-attempt warning; at the ceiling it becomes `failed` with a terminal
`Failed` notification. `PlatformRejected` goes straight to `failed`
regardless of attempt count. `AuthExpired` is never auto-retried and is
surfaced through the distinct `AuthExpired` notification event (§6). -/
def handleOutcome (cfg : DispatcherConfig) (item : ContentItem)
    (o : PublishOutcome) : ContentItem × NotifyEvent :=
  match o with
  | PublishOutcome.success =>
      ({ item with state := ContentState.published }, NotifyEvent.Published)
  | PublishOutcome.failure FailureKind.TransientError =>
      let n := item.attempt_count + 1
      if n < cfg.max_attempts then
        ({ item with
            attempt_count := n,
            scheduled_for := item.scheduled_for.map (fun t => t + cfg.backoff) },
          NotifyEvent.AttemptWarning)
      else
        ({ item with attempt_count := n, state := ContentState.failed },
          NotifyEvent.Failed)
  | PublishOutcome.failure FailureKind.PlatformRejected =>
      ({ item with
          attempt_count := item.attempt_count + 1,
          state := ContentState.failed },
        NotifyEvent.Failed)
  | PublishOutcome.failure FailureKind.AuthExpired =>
      ({ item with
          attempt_count := item.attempt_count + 1,
          state := ContentState.failed },
        NotifyEvent.AuthExpired)

/-- Modelled from the spec: cadence policy (§4.2) — N configured
times-of-day (minutes past midnight), optional photo/video alternation,
optional weekend skipping; defaults follow the repository's
automationSettings (src/src/app/scheduler/page.tsx: timesPerDay 2,
firstPost 09:00, secondPost 17:00, alternateContent true,
weekendPosting false). -/
structure CadencePolicy where
  slotTimes : List Nat
  alternateKind : Bool
  skipWeekends : Bool
deriving DecidableEq, Repr

/-- Modelled from the spec: default cadence from automationSettings. -/
def defaultCadence : CadencePolicy :=
  { slotTimes := [9 * 60, 17 * 60], alternateKind := true,
    skipWeekends := true }

/-- Minutes per day; time is modelled as minutes since a Monday
midnight epoch. -/
def minutesPerDay : Nat := 1440

/-- Day index of an absolute time. -/
def dayOf (t : Nat) : Nat := t / minutesPerDay

/-- Modelled from the spec: weekend days are skipped when the policy
says so (§4.2); with a Monday epoch, days 5 and 6 of each week are the
weekend. -/
def isWeekendDay (day : Nat) : Bool :=
  Decidable.decide (day % 7 = 5) || Decidable.decide (day % 7 = 6)

/-- Modelled from the spec: whether the cadence policy allows posting on
a given day (§4.2). -/
def allowedDay (p : CadencePolicy) (day : Nat) : Bool :=
  !(p.skipWeekends && isWeekendDay day)

/-- Modelled from the spec: the absolute slot times the policy offers on
one day — the configured times-of-day, or none on a disallowed day
(§4.2). -/
def slotsOnDay (p : CadencePolicy) (day : Nat) : List Nat :=
  if allowedDay p day then
    p.slotTimes.map (fun t => day * minutesPerDay + t)
  else
    []

/-- Modelled from the spec: walk forward from "now" across the
configured slot times over a bounded horizon of days, skipping
disallowed days and any slot already in the past (§4.2). -/
def slotsFrom (p : CadencePolicy) (now : Nat) (horizon : Nat) : List Nat :=
  ((List.range horizon).flatMap (fun i => slotsOnDay p (dayOf now + i))).filter
    (fun s => Decidable.decide (now ≤ s))

/-- Remove the first element of a list satisfying a predicate,
returning it and the remaining list. -/
def removeFirst (p : ContentItem → Bool) :
    List ContentItem → Option (ContentItem × List ContentItem)
  | [] => none
  | i :: rest =>
      if p i then
        some (i, rest)
      else
        match removeFirst p rest with
        | some (j, rest2) => some (j, i :: rest2)
        | none => none

/-- Modelled from the spec: pick the next queued item for a slot —
alternate `kind` when the policy requires it and a suitable item of the
alternate kind exists in the FIFO queue, else take the next available
regardless of kind so the queue is not starved (§4.2). -/
def pickNext (alternate : Bool) (lastKind : Option Kind)
    (queue : List ContentItem) : Option (ContentItem × List ContentItem) :=
  match alternate, lastKind with
  | true, some k =>
      match removeFirst (fun i => Decidable.decide (i.kind ≠ k)) queue with
      | some r => some r
      | none =>
          match queue with
          | [] => none
          | i :: rest => some (i, rest)
  | _, _ =>
      match queue with
      | [] => none
      | i :: rest => some (i, rest)

/-- Modelled from the spec: assign each slot, in order, the next queued
item under the alternation policy (§4.2); stops when slots or queue run
out. -/
def assignLoop (alternate : Bool) :
    List Nat → List ContentItem → Option Kind → List (ContentItem × Nat)
  | [], _, _ => []
  | slot :: slots, queue, lastKind =>
      match pickNext alternate lastKind queue with
      | none => []
      | some (i, rest) =>
          (i, slot) :: assignLoop alternate slots rest (some i.kind)

/-- Modelled from the spec: the Scheduler's slot assignment — walk
forward from "now", pairing the approval-ordered FIFO queue of
`approved` items with the policy's future slots (§4.2). -/
def assignSchedule (p : CadencePolicy) (now : Nat) (horizon : Nat)
    (queue : List ContentItem) : List (ContentItem × Nat) :=
  assignLoop p.alternateKind (slotsFrom p now horizon) queue none

/-- Modelled from the spec: result of the raw platform publish call as
seen by the sweep — it either returns an outcome or the call itself
throws; the in-flight marker is released on either (§5). -/
inductive PublishCallResult
  | returned (o : PublishOutcome)
  | raised
deriving DecidableEq, Repr

/-- Modelled from the spec: the phase of one sweep with respect to one
particular due item (§4.2, §5): it has not yet examined the item, it is
holding the in-flight marker while the publish call runs, or it is done
with the item (either having recorded an outcome or having skipped it). -/
inductive SweepPhase
  | start
  | publishing
  | finished
deriving DecidableEq, Repr

/-- Modelled from the spec: the shared state of two overlapping sweeps
contending for one due item (§4.2, §5): the per-item in-flight marker,
whether the item is still due (its outcome not yet recorded), the number
of publish attempts made, the number of marker releases, and each
sweep's phase. -/
structure SweepRace where
  inflight : Bool
  due : Bool
  attempts : Nat
  releases : Nat
  s1 : SweepPhase
  s2 : SweepPhase
deriving DecidableEq, Repr

/-- Modelled from the spec: the initial race state — the item is due,
no marker held, no attempt made, both sweeps yet to examine it. -/
def initialSweepRace : SweepRace :=
  { inflight := false, due := true, attempts := 0, releases := 0,
    s1 := SweepPhase.start, s2 := SweepPhase.start }

/-- Modelled from the spec: one interleaved step of the two sweeps
(§4.2, §5). A sweep dispatches the item only if it is still due and the
in-flight marker is free, setting the marker atomically with the
hand-off and invoking the publish call (one attempt); if the marker is
held or the item is no longer due (the sweep re-checks state immediately
before dispatch), it skips the item. When the publish call finishes —
returning an outcome or throwing — the outcome is recorded (the item is
no longer due at this tick) and the marker is released exactly once. -/
inductive SweepStep : SweepRace → SweepRace → Prop
  | dispatch1 (s : SweepRace) (h1 : s.s1 = SweepPhase.start)
      (hm : s.inflight = false) (hd : s.due = true) :
      SweepStep s
        { s with inflight := true, s1 := SweepPhase.publishing,
                 attempts := s.attempts + 1 }
  | skip1 (s : SweepRace) (h1 : s.s1 = SweepPhase.start)
      (h : s.inflight = true ∨ s.due = false) :
      SweepStep s { s with s1 := SweepPhase.finished }
  | outcome1 (s : SweepRace) (r : PublishCallResult)
      (h1 : s.s1 = SweepPhase.publishing) :
      SweepStep s
        { s with inflight := false, due := false,
                 s1 := SweepPhase.finished, releases := s.releases + 1 }
  | dispatch2 (s : SweepRace) (h2 : s.s2 = SweepPhase.start)
      (hm : s.inflight = false) (hd : s.due = true) :
      SweepStep s
        { s with inflight := true, s2 := SweepPhase.publishing,
                 attempts := s.attempts + 1 }
  | skip2 (s : SweepRace) (h2 : s.s2 = SweepPhase.start)
      (h : s.inflight = true ∨ s.due = false) :
      SweepStep s { s with s2 := SweepPhase.finished }
  | outcome2 (s : SweepRace) (r : PublishCallResult)
      (h2 : s.s2 = SweepPhase.publishing) :
      SweepStep s
        { s with inflight := false, due := false,
                 s2 := SweepPhase.finished, releases := s.releases + 1 }

/-- States reachable by interleaving the two sweeps from the initial
race state. -/
inductive SweepReach : SweepRace → Prop
  | init : SweepReach initialSweepRace
  | step (s s2 : SweepRace) : SweepReach s → SweepStep s s2 → SweepReach s2

/-- One feedback entry of the static review queue
(src/src/app/review/page.tsx); the `type` field carries the
concern/decision tag. -/
structure QueueFeedback where
  reviewer : String
  comment : String
  timestamp : Nat × Nat × Nat × Nat × Nat
  type : String
deriving DecidableEq, Repr

/-- One entry of the static review queue data of
src/src/app/review/page.tsx (lines 37-95). Display-only payload fields
(content text, image URLs, hashtags, engagement estimate) are omitted;
`scheduledFor`/`submittedAt` timestamps are kept as the literal
(year, month, day, hour, minute) arguments of the source's
`new Date(...)` calls (months 0-based as in JavaScript). -/
structure ReviewQueueItem where
  id : Nat
  type : String
  platform : String
  scheduledFor : Option (Nat × Nat × Nat × Nat × Nat)
  submittedBy : String
  submittedAt : Nat × Nat × Nat × Nat × Nat
  status : String
  priority : String
  brandAlignment : Nat
  riskScore : String
  feedback : List QueueFeedback
deriving DecidableEq, Repr

/-- The static reviewQueue array of src/src/app/review/page.tsx
(lines 37-95), field for field apart from the omitted display payload. -/
def reviewQueue : List ReviewQueueItem :=
  [ { id := 1, type := "photo", platform := "Instagram",
      scheduledFor := some (2024, 7, 23, 10, 0),
      submittedBy := "AI Generator", submittedAt := (2024, 7, 22, 14, 30),
      status := "pending", priority := "high", brandAlignment := 92,
      riskScore := "low", feedback := [] },
    { id := 2, type := "video", platform := "LinkedIn",
      scheduledFor := some (2024, 7, 23, 16, 0),
      submittedBy := "AI Generator", submittedAt := (2024, 7, 22, 15, 45),
      status := "pending", priority := "medium", brandAlignment := 87,
      riskScore := "low", feedback := [] },
    { id := 3, type := "photo", platform := "Twitter",
      scheduledFor := some (2024, 7, 24, 9, 0),
      submittedBy := "AI Generator", submittedAt := (2024, 7, 22, 16, 20),
      status := "flagged", priority := "high", brandAlignment := 78,
      riskScore := "medium",
      feedback :=
        [ { reviewer := "Sarah Chen",
            comment :=
              "The statistics need verification. Can we confirm the 340% increase claim?",
            timestamp := (2024, 7, 22, 17, 30), type := "concern" } ] } ]

/-- The user object as consumed by ProtectedRoute
(src/src/components/auth/protected-route.tsx); only the `role` field is
read by the component. -/
structure AuthUser where
  role : String
deriving DecidableEq, Repr

/-- The role hierarchy lookup of
src/src/components/auth/protected-route.tsx (lines 34-42 and 71-79):
`roleHierarchy[role] || 0` — viewer 1, editor 2, manager 3, admin 4,
anything else 0. -/
def roleLevel (role : String) : Nat :=
  if role = "viewer" then 1
  else if role = "editor" then 2
  else if role = "manager" then 3
  else if role = "admin" then 4
  else 0

/-- What ProtectedRoute renders. -/
inductive RenderResult
  | spinner
  | nothing
  | children
deriving DecidableEq, Repr

/-- The render path of ProtectedRoute
(src/src/components/auth/protected-route.tsx, lines 53-87): while
loading, the spinner; unauthenticated, nothing; with a truthy
requiredRole (a non-empty string) and a non-null user, nothing when the
user's level is below the required level; otherwise the children.
`requiredRole = none` models the prop being omitted. -/
def protectedRouteRender (isLoading isAuthenticated : Bool)
    (user : Option AuthUser) (requiredRole : Option String) : RenderResult :=
  if isLoading then
    RenderResult.spinner
  else if !isAuthenticated then
    RenderResult.nothing
  else
    match requiredRole, user with
    | some r, some u =>
        if r ≠ "" ∧ roleLevel u.role < roleLevel r then
          RenderResult.nothing
        else
          RenderResult.children
    | _, _ => RenderResult.children

/-- The four signup-form fields read by validateForm
(src/backend/README.md, lines 498-526). -/
structure SignupForm where
  email : String
  fullName : String
  password : String
  confirmPassword : String
deriving DecidableEq, Repr

/-- The /[A-Z]/ test of validateForm. -/
def hasUpper (s : String) : Bool :=
  s.toList.any (fun c => Decidable.decide ('A' ≤ c ∧ c ≤ 'Z'))

/-- The /[a-z]/ test of validateForm. -/
def hasLower (s : String) : Bool :=
  s.toList.any (fun c => Decidable.decide ('a' ≤ c ∧ c ≤ 'z'))

/-- The /\d/ test of validateForm. -/
def hasNumber (s : String) : Bool :=
  s.toList.any (fun c => Decidable.decide ('0' ≤ c ∧ c ≤ '9'))

/-- The special characters accepted by validateForm's
/[!@#$%^&*()_+\-=\[\]...|;:,.<>?]/ test (the bracketed class also holds
the two curly braces). -/
def specialChars : List Char :=
  String.toList "!@#$%^&*()_+-=[]\x7b\x7d|;:,.<>?"

/-- The special-character test of validateForm. -/
def hasSpecial (s : String) : Bool :=
  s.toList.any (fun c => specialChars.contains c)

/-- The validateForm function of the signup page
(src/backend/README.md, lines 498-526): returns the error message set
by the first failing check, or none when the form is valid (the source
returns false after setError, true when every check passes). -/
def validateForm (f : SignupForm) : Option String :=
  if f.email = "" ∨ f.fullName = "" ∨ f.password = "" ∨
      f.confirmPassword = "" then
    some "All fields are required"
  else if f.password ≠ f.confirmPassword then
    some "Passwords do not match"
  else if f.password.length < 8 then
    some "Password must be at least 8 characters long"
  else if !(hasUpper f.password && hasLower f.password &&
      hasNumber f.password && hasSpecial f.password) then
    some "Password must contain uppercase, lowercase, number, and special character"
  else
    none

/-- The effect visible from one handleSubmit run
(src/backend/README.md, lines 528-575): a validation error with no
request, a bootstrap-admin creation request, a regular signup request,
or the admin-privilege error with no request. -/
inductive SubmitEffect
  | validationError (message : String)
  | bootstrapAdminRequest
  | signupRequest
  | privilegeDenied
deriving DecidableEq, Repr

/-- The handleSubmit control flow of the signup page
(src/backend/README.md, lines 528-575): an invalid form short-circuits
with its error message and issues no request; otherwise the bootstrap
path requests admin creation, and the regular path requests signup only
for an authenticated admin or manager. -/
def handleSubmit (f : SignupForm) (bootstrapNeeded : Bool)
    (isAuthenticated : Bool) (user : Option AuthUser) : SubmitEffect :=
  match validateForm f with
  | some e => SubmitEffect.validationError e
  | none =>
      if bootstrapNeeded then
        SubmitEffect.bootstrapAdminRequest
      else
        match user with
        | some u =>
            if isAuthenticated ∧ (u.role = "admin" ∨ u.role = "manager") then
              SubmitEffect.signupRequest
            else
              SubmitEffect.privilegeDenied
        | none => SubmitEffect.privilegeDenied

/-- Modelled from the spec: content items reachable by the pipeline —
created fresh by the Scraper Collector (`scraped`) or AI Drafter
(`draft`) with no `scheduled_for`, `attempt_count = 0` and no feedback
(§3), then mutated exclusively through successful Review Gate /
Scheduler / Publisher Dispatcher operations; the Dispatcher (default
configuration) acts only on `scheduled` items. -/
inductive Reach : ContentItem → Prop
  | fresh (id : Nat) (p : Platform) (k : Kind) (s0 : ContentState)
      (hs : s0 = ContentState.scraped ∨ s0 = ContentState.draft) :
      Reach { id := id, platform := p, kind := k, state := s0,
              scheduled_for := none, attempt_count := 0,
              review_feedback := [] }
  | trans (i : ContentItem) (t : Trigger) (hr : Reach i)
      (hok : (transition i t).2 = none) : Reach (transition i t).1
  | feedback (i : ContentItem) (r c : String) (ts : Nat) (hr : Reach i) :
      Reach (add_feedback i r c ts)
  | dispatch (i : ContentItem) (o : PublishOutcome) (hr : Reach i)
      (hs : i.state = ContentState.scheduled) :
      Reach (handleOutcome defaultDispatcherConfig i o).1

/-- The inductive invariant of reachable content items: `scheduled_for`
is set exactly in the states at or beyond `scheduled`; the attempt count
is zero before dispatch, below the ceiling while the item can still be
dispatched or has been published, and never above the ceiling. -/
def ReachInv (i : ContentItem) : Prop :=
  (i.scheduled_for.isSome = true ↔
      (i.state = ContentState.scheduled ∨ i.state = ContentState.published ∨
       i.state = ContentState.failed))
  ∧ ((i.state = ContentState.scheduled ∨ i.state = ContentState.published) →
      i.attempt_count < defaultDispatcherConfig.max_attempts)
  ∧ (¬(i.state = ContentState.scheduled ∨ i.state = ContentState.published ∨
        i.state = ContentState.failed) → i.attempt_count = 0)
  ∧ i.attempt_count ≤ defaultDispatcherConfig.max_attempts

/-- Modelled from the spec: the guard of each trigger — the set of
source states from which the §4.1 edge for that trigger departs. -/
def triggerGuard (s : ContentState) : Trigger → Bool
  | Trigger.submit =>
      Decidable.decide (s = ContentState.scraped ∨ s = ContentState.draft)
  | Trigger.flag => Decidable.decide (s = ContentState.pending_review)
  | Trigger.approve _ =>
      Decidable.decide
        (s = ContentState.pending_review ∨ s = ContentState.flagged)
  | Trigger.reject _ =>
      Decidable.decide
        (s = ContentState.pending_review ∨ s = ContentState.flagged)
  | Trigger.schedule _ => Decidable.decide (s = ContentState.approved)
  | Trigger.publishSuccess => Decidable.decide (s = ContentState.scheduled)
  | Trigger.publishFail => Decidable.decide (s = ContentState.scheduled)

/-- The inductive invariant of the two-sweep race: who holds the marker,
how attempts, releases and dueness relate, and that nothing has happened
while both sweeps are still at the start. -/
def SweepInv (s : SweepRace) : Prop :=
  (s.inflight = true ↔
      (s.s1 = SweepPhase.publishing ∨ s.s2 = SweepPhase.publishing))
  ∧ ¬(s.s1 = SweepPhase.publishing ∧ s.s2 = SweepPhase.publishing)
  ∧ s.attempts = s.releases + (if s.inflight then 1 else 0)
  ∧ (s.due = true ↔ s.releases = 0)
  ∧ (s.inflight = true → s.releases = 0)
  ∧ s.releases ≤ 1
  ∧ (s.attempts = 0 → s.s1 = SweepPhase.start ∧ s.s2 = SweepPhase.start)

/-- The race state after sweep 1 grabs the in-flight marker and makes
the publish attempt. -/
def raceMid : SweepRace :=
  { inflight := true, due := true, attempts := 1, releases := 0,
    s1 := SweepPhase.publishing, s2 := SweepPhase.start }

/-- The race state after sweep 1's publish call throws and the marker is
released on that outcome. -/
def raceAfterOutcome : SweepRace :=
  { inflight := false, due := false, attempts := 1, releases := 1,
    s1 := SweepPhase.finished, s2 := SweepPhase.start }

/-- The final race state after sweep 2 re-checks, finds the item no
longer due, and skips it. -/
def raceFinal : SweepRace :=
  { inflight := false, due := false, attempts := 1, releases := 1,
    s1 := SweepPhase.finished, s2 := SweepPhase.finished }

/-- A concrete due item on its first attempt, used to exhibit the
PlatformRejected short-circuit. -/
def rejectedOnFirstTry : ContentItem :=
  { id := 1, platform := Platform.instagram, kind := Kind.photo,
    state := ContentState.scheduled, scheduled_for := some 100,
    attempt_count := 0, review_feedback := [] }

/-- A concrete published item, used to exhibit the published-history
guard. -/
def publishedItem : ContentItem :=
  { id := 2, platform := Platform.twitter, kind := Kind.text,
    state := ContentState.published, scheduled_for := some 200,
    attempt_count := 1, review_feedback := [] }

/-- A concrete fresh approved item, used to exercise the Scheduler's
slot assignment. -/
def approvedItem : ContentItem :=
  { id := 3, platform := Platform.linkedin, kind := Kind.video,
    state := ContentState.approved, scheduled_for := none,
    attempt_count := 0, review_feedback := [] }

/-- A concrete fresh item awaiting review, used to exercise the
first-feedback flagging rule. -/
def freshPendingItem : ContentItem :=
  { id := 4, platform := Platform.instagram, kind := Kind.photo,
    state := ContentState.pending_review, scheduled_for := none,
    attempt_count := 0, review_feedback := [] }

/-- A concrete flagged item carrying one feedback entry. -/
def flaggedItem : ContentItem :=
  { id := 5, platform := Platform.twitter, kind := Kind.photo,
    state := ContentState.flagged, scheduled_for := none,
    attempt_count := 0,
    review_feedback := [⟨"Sarah Chen", "Please verify the statistics", 10⟩] }

/-- A concrete signup form passing every validation check. -/
def validSignupForm : SignupForm :=
  { email := "ops@sonata.example", fullName := "Alex Doe",
    password := "Str0ng!pass", confirmPassword := "Str0ng!pass" }

/-- A concrete signup form with every field empty. -/
def emptySignupForm : SignupForm :=
  { email := "", fullName := "", password := "", confirmPassword := "" }

/-- A concrete freshly scraped item at the start of the pipeline. -/
def freshScrapedItem : ContentItem :=
  { id := 6, platform := Platform.instagram, kind := Kind.photo,
    state := ContentState.scraped, scheduled_for := none,
    attempt_count := 0, review_feedback := [] }

/-- Every reachable content item satisfies the inductive invariant. -/
theorem reach_inv (i : ContentItem) (h : Reach i) : ReachInv i := by
  induction h with
  | fresh id p k s0 hs =>
      rcases hs with h0 | h0 <;> subst h0 <;>
        simp [ReachInv, defaultDispatcherConfig]
  | trans i t hr hok ih =>
      obtain ⟨hA, hB, hC, hD⟩ := ih
      rcases t with _ | _ | p | p | slot | _ | _ <;>
        rcases hst : i.state <;>
        (try rcases p) <;>
        simp_all [transition, submit_for_review, flagTransition, decide,
          markScheduled, markPublished, markFailed, ReachInv,
          defaultDispatcherConfig]
  | feedback i r c ts hr ih =>
      obtain ⟨hA, hB, hC, hD⟩ := ih
      by_cases hc :
        i.state = ContentState.pending_review ∧ i.review_feedback = []
      · obtain ⟨hc1, hc2⟩ := hc
        simp_all [add_feedback, ReachInv, defaultDispatcherConfig]
      · simp only [add_feedback, if_neg hc]
        exact ⟨hA, hB, hC, hD⟩
  | dispatch i o hr hs ih =>
      obtain ⟨hA, hB, hC, hD⟩ := ih
      rcases o with _ | k
      · simp_all [handleOutcome, ReachInv, defaultDispatcherConfig]
      · rcases k with _ | _ | _
        · simp_all [handleOutcome, ReachInv, defaultDispatcherConfig]
          omega
        · simp only [handleOutcome]
          split_ifs with hn <;>
            simp_all [ReachInv, defaultDispatcherConfig] <;>
            omega
        · simp_all [handleOutcome, ReachInv, defaultDispatcherConfig]
          omega

/-- C1: every successful Review Gate transition follows one of the §4.1
edges (scraped/draft to pending_review, pending_review to flagged,
pending_review/flagged to approved, pending_review/flagged to rejected,
approved to scheduled, scheduled to published, scheduled to failed); a
failed attempt returns the item — state and attempt_count included —
exactly as it was; an attempt whose trigger does not depart from the
item's current state returns InvalidTransition; and in particular
rejecting an already-published item returns InvalidTransition and
leaves it published. -/
theorem review_gate_edge_soundness (i : ContentItem) (t : Trigger) :
    ((transition i t).2 = none →
        legalEdge i.state (transition i t).1.state = true)
    ∧ ((transition i t).2 ≠ none → (transition i t).1 = i)
    ∧ (triggerGuard i.state t = false →
        transition i t = (i, some PipelineError.InvalidTransition))
    ∧ (∀ p : Bool, i.state = ContentState.published →
        transition i (Trigger.reject p) =
          (i, some PipelineError.InvalidTransition)) := by
  rcases t with _ | _ | p | p | slot | _ | _ <;>
    rcases hst : i.state <;>
    (try rcases p) <;>
    simp_all [transition, submit_for_review, flagTransition, decide,
      markScheduled, markPublished, markFailed, legalEdge, triggerGuard]

/-- Witness for C1: rejecting a concrete published item is refused with
InvalidTransition and the item is returned untouched. -/
theorem review_gate_edge_soundness_witness :
    transition publishedItem (Trigger.reject true) =
      (publishedItem, some PipelineError.InvalidTransition) :=
  (review_gate_edge_soundness publishedItem (Trigger.reject true)).2.2.2
    true rfl

/-- C4: decide fails with InvalidTransition whenever the item is not in
pending_review/flagged, and on a reviewable item fails with
Unauthorized whenever the reviewer lacks the delegated
reviewer-or-above privilege; in both failure cases the returned item is
the input unchanged. -/
theorem decide_guard_errors (i : ContentItem) (d : Decision) (p : Bool) :
    (¬(i.state = ContentState.pending_review ∨
        i.state = ContentState.flagged) →
      decide i d p = (i, some PipelineError.InvalidTransition))
    ∧ ((i.state = ContentState.pending_review ∨
        i.state = ContentState.flagged) → p = false →
      decide i d p = (i, some PipelineError.Unauthorized)) := by
  constructor
  · intro h
    simp [decide, h]
  · intro h hp
    subst hp
    simp [decide, h]

/-- Witness for C4: deciding on a concrete published item yields
InvalidTransition unchanged, and an unprivileged decision on a concrete
pending item yields Unauthorized unchanged. -/
theorem decide_guard_errors_witness :
    decide publishedItem Decision.reject true =
        (publishedItem, some PipelineError.InvalidTransition)
    ∧ decide freshPendingItem Decision.approve false =
        (freshPendingItem, some PipelineError.Unauthorized) :=
  ⟨(decide_guard_errors publishedItem Decision.reject true).1 (by decide),
   (decide_guard_errors freshPendingItem Decision.approve false).2
     (by decide) rfl⟩

/-- C5: add_feedback is legal in every state and appends the entry to
review_feedback; it changes the state only when it is the first
feedback entry on a pending_review item, which becomes flagged, and a
subsequent feedback entry on an already-flagged item leaves the state
flagged. -/
theorem add_feedback_always_legal (i : ContentItem) (r c : String)
    (ts : Nat) :
    ((add_feedback i r c ts).review_feedback =
        i.review_feedback ++ [⟨r, c, ts⟩])
    ∧ ((add_feedback i r c ts).state =
        if i.state = ContentState.pending_review ∧ i.review_feedback = []
        then ContentState.flagged else i.state)
    ∧ (i.state = ContentState.flagged →
        (add_feedback i r c ts).state = ContentState.flagged) := by
  by_cases hc :
    i.state = ContentState.pending_review ∧ i.review_feedback = []
  · simp [add_feedback, hc]
  · simp [add_feedback, hc]

/-- Witness for C5: the first feedback on a concrete fresh
pending_review item flags it, and feedback on a concrete already
flagged item leaves it flagged. -/
theorem add_feedback_always_legal_witness :
    (add_feedback flaggedItem "Mike Rodriguez" "Second look" 20).state =
      ContentState.flagged :=
  (add_feedback_always_legal flaggedItem "Mike Rodriguez" "Second look"
    20).2.2 rfl

/-- C3: a PlatformRejected outcome on a due item moves it straight to
failed regardless of its current attempt_count — even on the very first
attempt — and the failed item is never due again, so it is never
retried. -/
theorem platform_rejected_terminal (cfg : DispatcherConfig)
    (i : ContentItem) (now : Nat) (hdue : isDue i now = true) :
    ((handleOutcome cfg i
        (PublishOutcome.failure FailureKind.PlatformRejected)).1.state =
      ContentState.failed)
    ∧ (∀ m : Nat,
        isDue (handleOutcome cfg i
          (PublishOutcome.failure FailureKind.PlatformRejected)).1 m =
          false) := by
  constructor
  · simp [handleOutcome]
  · intro m
    simp [handleOutcome, isDue]

/-- Witness for C3: the concrete due first-attempt item goes straight
to failed on PlatformRejected. -/
theorem platform_rejected_terminal_witness :
    (handleOutcome defaultDispatcherConfig rejectedOnFirstTry
        (PublishOutcome.failure FailureKind.PlatformRejected)).1.state =
      ContentState.failed :=
  (platform_rejected_terminal defaultDispatcherConfig rejectedOnFirstTry
    100 (by decide)).1

/-- C2 counterexample: the PlatformRejected rule contradicts the
claim's universal retry clause — on a concrete due item failing its
first publish attempt with PlatformRejected, the incremented
attempt_count 1 is still below max_attempts 3, yet the item is failed,
not scheduled. -/
theorem dispatcher_retry_counterexample :
    isDue rejectedOnFirstTry 100 = true
    ∧ (handleOutcome defaultDispatcherConfig rejectedOnFirstTry
        (PublishOutcome.failure FailureKind.PlatformRejected)).1.attempt_count
        = 1
    ∧ 1 < defaultDispatcherConfig.max_attempts
    ∧ ¬((handleOutcome defaultDispatcherConfig rejectedOnFirstTry
        (PublishOutcome.failure FailureKind.PlatformRejected)).1.state =
          ContentState.scheduled) := by
  refine ⟨by decide, rfl, by decide, by decide⟩

/-- C2 (amended to the retried failure kind): a TransientError on a due
item increments attempt_count; while the incremented count is below
max_attempts the item stays scheduled with scheduled_for pushed forward
by the backoff interval; at the ceiling it becomes failed; and every
pipeline-reachable item (default configuration) whose attempt_count has
reached max_attempts is failed, never scheduled. -/
theorem dispatcher_transient_retry_policy (cfg : DispatcherConfig)
    (i : ContentItem) (now : Nat) (hdue : isDue i now = true) :
    ((handleOutcome cfg i
        (PublishOutcome.failure FailureKind.TransientError)).1.attempt_count
      = i.attempt_count + 1)
    ∧ (i.attempt_count + 1 < cfg.max_attempts →
        (handleOutcome cfg i
            (PublishOutcome.failure FailureKind.TransientError)).1.state =
          ContentState.scheduled
        ∧ (handleOutcome cfg i
            (PublishOutcome.failure FailureKind.TransientError)).1.scheduled_for
          = i.scheduled_for.map (fun t => t + cfg.backoff))
    ∧ (¬(i.attempt_count + 1 < cfg.max_attempts) →
        (handleOutcome cfg i
          (PublishOutcome.failure FailureKind.TransientError)).1.state =
          ContentState.failed)
    ∧ (∀ j : ContentItem, Reach j →
        j.attempt_count = defaultDispatcherConfig.max_attempts →
        j.state = ContentState.failed
          ∧ j.state ≠ ContentState.scheduled) := by
  have hdue2 := hdue
  rw [isDue, Bool.and_eq_true, decide_eq_true_eq] at hdue2
  obtain ⟨hst, -⟩ := hdue2
  refine ⟨?_, ?_, ?_, ?_⟩
  · simp only [handleOutcome]
    split_ifs <;> rfl
  · intro hn
    simp [handleOutcome, if_pos hn, hst]
  · intro hn
    simp [handleOutcome, if_neg hn]
  · intro j hj hcount
    have hinv := reach_inv j hj
    simp only [ReachInv] at hinv
    obtain ⟨hA, hB, hC, hD⟩ := hinv
    rcases hstj : j.state <;> simp_all [defaultDispatcherConfig]

/-- Witness for C2: the concrete due first-attempt item, failing with a
TransientError, stays scheduled with its slot pushed forward by the
default backoff. -/
theorem dispatcher_transient_retry_policy_witness :
    (handleOutcome defaultDispatcherConfig rejectedOnFirstTry
        (PublishOutcome.failure FailureKind.TransientError)).1.state =
        ContentState.scheduled
    ∧ (handleOutcome defaultDispatcherConfig rejectedOnFirstTry
        (PublishOutcome.failure FailureKind.TransientError)).1.scheduled_for
        = some 160 := by
  obtain ⟨h1, h2⟩ :=
    (dispatcher_transient_retry_policy defaultDispatcherConfig
      rejectedOnFirstTry 100 (by decide)).2.1 (by decide)
  exact ⟨h1, by
    rw [h2]
    rfl⟩

/-- C6 counterexample: the repository's own review queue
(src/src/app/review/page.tsx) holds item 1 in status "pending" with no
feedback and no review history — it has never been scheduled — yet its
scheduledFor field is set, so a non-empty scheduled slot does not imply
the item is in, or has passed through, the scheduled state. -/
theorem scheduled_for_invariant_counterexample :
    ∃ q ∈ reviewQueue, q.id = 1 ∧ q.status = "pending" ∧
      q.feedback = [] ∧ q.scheduledFor.isSome = true := by
  decide

/-- C6 (amended to pipeline-governed items): for every content item
reachable in the modelled pipeline, scheduled_for is non-empty exactly
when the item is in state scheduled, published or failed — the latter
two reachable only through scheduled per the §4.1 edges — and in
particular a pending_review or flagged item, which has never been
scheduled, has no scheduled_for. -/
theorem scheduled_for_state_invariant (i : ContentItem) (h : Reach i) :
    (i.scheduled_for.isSome = true ↔
      (i.state = ContentState.scheduled ∨ i.state = ContentState.published
        ∨ i.state = ContentState.failed))
    ∧ ((i.state = ContentState.pending_review ∨
        i.state = ContentState.flagged) → i.scheduled_for = none) := by
  have hinv := reach_inv i h
  simp only [ReachInv] at hinv
  obtain ⟨hA, hB, hC, hD⟩ := hinv
  refine ⟨hA, ?_⟩
  intro hs
  cases hsf : i.scheduled_for with
  | none => rfl
  | some v =>
      exfalso
      rcases hs with hs | hs <;> simp_all

/-- Witness for C6: the fresh scraped item, once submitted for review,
is a reachable pending_review item with no scheduled_for. -/
theorem scheduled_for_state_invariant_witness :
    (transition freshScrapedItem Trigger.submit).1.scheduled_for = none :=
  (scheduled_for_state_invariant _
      (Reach.trans freshScrapedItem Trigger.submit
        (Reach.fresh 6 Platform.instagram Kind.photo ContentState.scraped
          (Or.inl rfl))
        (by decide))).2 (Or.inl (by decide))

/-- Every slot the walk produces lies at or after "now". -/
theorem slotsFrom_ge (p : CadencePolicy) (now horizon s : Nat)
    (h : s ∈ slotsFrom p now horizon) : now ≤ s := by
  simp only [slotsFrom, List.mem_filter, decide_eq_true_eq] at h
  exact h.2

/-- Every slot paired by the assignment loop comes from its slot list. -/
theorem assignLoop_slot_mem (alt : Bool) (slots : List Nat)
    (queue : List ContentItem) (lk : Option Kind) (i : ContentItem)
    (s : Nat) (h : (i, s) ∈ assignLoop alt slots queue lk) : s ∈ slots := by
  induction slots generalizing queue lk with
  | nil => simp [assignLoop] at h
  | cons slot rest ih =>
      rw [assignLoop] at h
      cases hp : pickNext alt lk queue with
      | none => simp [hp] at h
      | some pr =>
          rcases pr with ⟨j, q2⟩
          rw [hp] at h
          simp only [List.mem_cons, Prod.mk.injEq] at h
          rcases h with ⟨-, hs⟩ | h
          · simp [hs]
          · exact List.mem_cons_of_mem _ (ih q2 (some j.kind) h)

/-- C7: the Scheduler's slot assignment walks forward from "now", so no
item is ever paired with a slot strictly earlier than the assignment
time, and marking the approved item scheduled records exactly that
slot. -/
theorem scheduler_no_past_assignment (p : CadencePolicy)
    (now horizon : Nat) (queue : List ContentItem) (i : ContentItem)
    (slot : Nat) (h : (i, slot) ∈ assignSchedule p now horizon queue) :
    now ≤ slot
    ∧ (i.state = ContentState.approved →
        (markScheduled i slot).1.scheduled_for = some slot) := by
  constructor
  · exact slotsFrom_ge p now horizon slot
      (assignLoop_slot_mem p.alternateKind (slotsFrom p now horizon) queue
        none i slot h)
  · intro hs
    simp [markScheduled, hs]

/-- Witness for C7: with the default cadence, from time 0 the concrete
approved item is assigned the 09:00 slot of day 0, which is not in the
past. -/
theorem scheduler_no_past_assignment_witness :
    (0 : Nat) ≤ 540
    ∧ (markScheduled approvedItem 540).1.scheduled_for = some 540 := by
  have h := scheduler_no_past_assignment defaultCadence 0 1 [approvedItem]
    approvedItem 540 (by decide)
  exact ⟨h.1, h.2 rfl⟩

/-- Every race state reachable by the two overlapping sweeps satisfies
the marker invariant. -/
theorem sweepReach_inv (s : SweepRace) (h : SweepReach s) : SweepInv s := by
  induction h with
  | init => simp [SweepInv, initialSweepRace]
  | step s s2 hr hstep ih =>
      simp only [SweepInv] at ih
      obtain ⟨i1, i2, i3, i4, i5, i6, i7⟩ := ih
      cases hstep with
      | dispatch1 h1 hm hd =>
          simp_all [SweepInv]
      | skip1 h1 hor =>
          rcases hor with hor | hor <;> simp_all [SweepInv]
      | outcome1 r h1 =>
          simp_all [SweepInv]
      | dispatch2 h2 hm hd =>
          simp_all [SweepInv]
      | skip2 h2 hor =>
          rcases hor with hor | hor <;> simp_all [SweepInv]
      | outcome2 r h2 =>
          simp_all [SweepInv]

/-- C8: however two concurrent sweeps over the same due item
interleave, once both are done exactly one publish attempt was made and
the in-flight marker was released exactly once — including the
interleavings where the publish call itself throws, since the release
happens on every outcome. -/
theorem sweep_race_single_dispatch (s : SweepRace) (h : SweepReach s)
    (h1 : s.s1 = SweepPhase.finished) (h2 : s.s2 = SweepPhase.finished) :
    s.attempts = 1 ∧ s.releases = 1 := by
  have hinv := sweepReach_inv s h
  simp only [SweepInv] at hinv
  obtain ⟨i1, i2, i3, i4, i5, i6, i7⟩ := hinv
  have hifl : s.inflight = false := by
    cases hb : s.inflight
    · rfl
    · have := i1.mp hb
      rw [h1, h2] at this
      rcases this with hc | hc <;> cases hc
  rw [hifl] at i3
  simp only [if_neg (by simp : ¬(false = true)), Bool.false_eq_true,
    if_false, Nat.add_zero] at i3
  cases hz : s.attempts with
  | zero =>
      obtain ⟨c1, -⟩ := i7 hz
      rw [h1] at c1
      cases c1
  | succ n => omega

/-- Witness for C8: the concrete interleaving in which sweep 1
dispatches, its publish call throws, the marker is released on that
outcome, and sweep 2 then re-checks and skips, ends with exactly one
attempt and one release. -/
theorem sweep_race_single_dispatch_witness :
    raceFinal.attempts = 1 ∧ raceFinal.releases = 1 :=
  sweep_race_single_dispatch raceFinal
    (SweepReach.step raceAfterOutcome raceFinal
      (SweepReach.step raceMid raceAfterOutcome
        (SweepReach.step initialSweepRace raceMid SweepReach.init
          (SweepStep.dispatch1 initialSweepRace rfl rfl rfl))
        (SweepStep.outcome1 raceMid PublishCallResult.raised rfl))
      (SweepStep.skip2 raceAfterOutcome rfl (Or.inr rfl)))
    rfl rfl

/-- C9: for an authenticated, loaded, non-null user, ProtectedRoute
renders its children exactly when the user's level in the
viewer/editor/manager/admin hierarchy (any other string maps to 0)
reaches the required role's level; hence a user with an unknown role is
denied whenever the required level is positive, and an unknown (level
0) requiredRole admits every authenticated user. -/
theorem protected_route_role_gate (u : AuthUser) (r : String) :
    (protectedRouteRender false true (some u) (some r) =
        RenderResult.children ↔ roleLevel r ≤ roleLevel u.role)
    ∧ (1 ≤ roleLevel r → roleLevel u.role = 0 →
        protectedRouteRender false true (some u) (some r) =
          RenderResult.nothing)
    ∧ (roleLevel r = 0 →
        protectedRouteRender false true (some u) (some r) =
          RenderResult.children) := by
  have hempty : roleLevel "" = 0 := rfl
  refine ⟨?_, ?_, ?_⟩
  · by_cases hr : r = ""
    · subst hr
      simp [protectedRouteRender, hempty]
    · by_cases hlt : roleLevel u.role < roleLevel r
      · simp [protectedRouteRender, hr, hlt]
      · simp [protectedRouteRender, hr, hlt]
        omega
  · intro hpos hzero
    have hlt : roleLevel u.role < roleLevel r := by omega
    have hr : r ≠ "" := by
      intro he
      rw [he, hempty] at hpos
      omega
    simp [protectedRouteRender, hr, hlt]
  · intro hzero
    have hnlt : ¬(roleLevel u.role < roleLevel r) := by omega
    simp [protectedRouteRender, hnlt]

/-- Witness for C9: a manager-level user passes an editor-level
requirement. -/
theorem protected_route_role_gate_witness :
    protectedRouteRender false true (some { role := "manager" })
      (some "editor") = RenderResult.children :=
  (protected_route_role_gate { role := "manager" } "editor").1.mpr
    (by decide)

/-- C10: validateForm accepts exactly the forms whose four fields are
all non-empty, whose passwords match with length at least 8 and contain
an uppercase letter, a lowercase letter, a digit and a special
character; handleSubmit issues an account-creation request only on an
accepted form, and on a failing form it surfaces the validation error
message and issues no request. -/
theorem signup_validation_spec (f : SignupForm) :
    (validateForm f = none ↔
      (f.email ≠ "" ∧ f.fullName ≠ "" ∧ f.password ≠ "" ∧
        f.confirmPassword ≠ "" ∧ f.password = f.confirmPassword ∧
        8 ≤ f.password.length ∧ hasUpper f.password = true ∧
        hasLower f.password = true ∧ hasNumber f.password = true ∧
        hasSpecial f.password = true))
    ∧ (∀ (b a : Bool) (u : Option AuthUser),
        (handleSubmit f b a u = SubmitEffect.bootstrapAdminRequest ∨
          handleSubmit f b a u = SubmitEffect.signupRequest) →
        validateForm f = none)
    ∧ (∀ e, validateForm f = some e →
        ∀ (b a : Bool) (u : Option AuthUser),
          handleSubmit f b a u = SubmitEffect.validationError e) := by
  refine ⟨?_, ?_, ?_⟩
  · unfold validateForm
    split_ifs with h1 h2 h3 h4
    · simp only [reduceCtorEq, false_iff]
      intro hc
      tauto
    · simp only [reduceCtorEq, false_iff]
      intro hc
      tauto
    · simp only [reduceCtorEq, false_iff]
      intro hc
      exact absurd hc.2.2.2.2.2.1 (by omega)
    · simp only [reduceCtorEq, false_iff]
      intro hc
      obtain ⟨-, -, -, -, -, -, hu, hl, hn, hsp⟩ := hc
      rw [hu, hl, hn, hsp] at h4
      simp at h4
    · simp only [true_iff]
      push_neg at h1 h3
      push_neg at h2
      have h4x : (hasUpper f.password && hasLower f.password &&
          hasNumber f.password && hasSpecial f.password) = true := by
        revert h4
        cases hasUpper f.password && hasLower f.password &&
          hasNumber f.password && hasSpecial f.password <;> simp
      simp only [Bool.and_eq_true] at h4x
      tauto
  · intro b a u hor
    cases hv : validateForm f with
    | none => rfl
    | some e =>
        rcases hor with hor | hor <;>
          simp [handleSubmit, hv] at hor
  · intro e hv b a u
    simp [handleSubmit, hv]

/-- Witness for C10: the concrete strong form validates, and the empty
form is rejected with the all-fields-required message and produces no
request. -/
theorem signup_validation_spec_witness :
    validateForm validSignupForm = none
    ∧ handleSubmit emptySignupForm true true none =
        SubmitEffect.validationError "All fields are required" := by
  constructor
  · exact (signup_validation_spec validSignupForm).1.mpr (by decide)
  · exact (signup_validation_spec emptySignupForm).2.2
      "All fields are required" (by decide) true true none

end SocialMaestro
